import Mathlib

/-!
Verification of the shared-trial-study coordination workflow of the
reservoirpy "Local parallelization of Hyper Parameter Search" tutorial
(`4a.2-Local_parallelized_hp_search.ipynb`).

The notebook's own code consists of the worker loop `optimize_study`
(`study.ask()` / `study.tell(trial, objective(trial))`), the driver loop
(`n_trials_per_process = nb_trials // n_process`, `args_list`, joblib fan-out,
wall-clock timing prints) and the journal file name
`log_name = f"optuna-journal_{study_name}.log"`.  Those parts are embedded
directly from the source.  The Study / append-only Journal semantics
(`ask`, `tell`, replay) are implemented by the external optuna library and are
not part of this repository's sources; they are modelled from the
specification's data model and ask/tell protocol, as noted on each such
definition.
-/

namespace HPSearch

/-! ## Definitions -/

/-- Trial parameters: a mapping from hyper-parameter name to sampled value.
Sampled values are modelled as integers (the numeric value itself plays no
role in the coordination protocol). -/
abbrev Params := List (String × Int)

/-- Modelled from the spec: trial status, `Running`, `Complete` or `Failed`
(spec data model; the optuna trial-state enumeration is not in this
repository's sources). -/
inductive Status
  | Running
  | Complete
  | Failed
deriving DecidableEq

/-- Modelled from the spec: the value returned by `study.ask()` — a fresh
trial id together with freshly sampled parameters. -/
structure Trial where
  id : Nat
  parameters : Params
deriving DecidableEq

/-- Modelled from the spec: one journal event; its sequence number is its
position in the journal list.  Event kinds are `TrialCreated`,
`TrialCompleted` and `TrialFailed` (spec §3, Journal Event). -/
inductive JournalEvent
  | trialCreated (id : Nat) (parameters : Params)
  | trialCompleted (id : Nat) (value : Int)
  | trialFailed (id : Nat)
deriving DecidableEq

/-- The durable, append-only journal: events in append order. -/
abbrev Journal := List JournalEvent

/-- One trial as reconstructed in a Study projection: id, parameters,
status and (for completed trials) the told value. -/
structure TrialRec where
  id : Nat
  parameters : Params
  status : Status
  value : Option Int
deriving DecidableEq

/-- The in-memory projection of the journal: the trial records in ask order. -/
abbrev StudyState := List TrialRec

/-- Mark the record of trial `id` as Complete with value `v`; other records
are untouched. -/
def completeRec (id : Nat) (v : Int) (t : TrialRec) : TrialRec :=
  if t.id = id then TrialRec.mk t.id t.parameters Status.Complete (some v) else t

/-- Mark the record of trial `id` as Failed; other records are untouched. -/
def failRec (id : Nat) (t : TrialRec) : TrialRec :=
  if t.id = id then TrialRec.mk t.id t.parameters Status.Failed none else t

/-- Modelled from the spec: replaying one journal event into the Study
projection (spec §3: replaying all events in sequence order reconstructs the
Study deterministically). -/
def applyEvent (s : StudyState) : JournalEvent → StudyState
  | JournalEvent.trialCreated id ps => s ++ [TrialRec.mk id ps Status.Running none]
  | JournalEvent.trialCompleted id v => s.map (completeRec id v)
  | JournalEvent.trialFailed id => s.map (failRec id)

/-- Modelled from the spec: rebuild the Study projection by replaying every
journal event in append order. -/
def replay (j : Journal) : StudyState := j.foldl applyEvent []

/-- A Study handle: the shared journal it is bound to together with its
in-memory projection. -/
structure Study where
  journal : Journal
  state : StudyState
deriving DecidableEq

/-- Modelled from the spec: `open(name, direction)` with `load_if_exists` —
replay an existing journal to reconstruct the current trial state. -/
def openStudy (j : Journal) : Study := Study.mk j (replay j)

/-- Modelled from the spec: `study.ask()` — atomically reserve the next
trial id (the number of trials asked so far across the whole shared journal),
sample its parameters, and append the `TrialCreated` event. -/
def Study.ask (sampler : Nat → Params) (s : Study) : Trial × Study :=
  (Trial.mk s.state.length (sampler s.state.length),
   Study.mk
     (s.journal ++ [JournalEvent.trialCreated s.state.length (sampler s.state.length)])
     (s.state ++ [TrialRec.mk s.state.length (sampler s.state.length) Status.Running none]))

/-- Modelled from the spec: protocol-misuse errors of `tell` (spec §7). -/
inductive TellError
  | UnknownTrialError
  | DuplicateTellError
deriving DecidableEq

/-- Modelled from the spec: `study.tell(trial, value)` — append a
`TrialCompleted` event for `trial.id`.  Fails with `UnknownTrialError` if the
id was never asked from this journal; telling the same `(id, value)` pair a
second time is a no-op, while a second tell with a different value fails with
`DuplicateTellError` (spec §4.2). -/
def Study.tell (s : Study) (id : Nat) (v : Int) : Except TellError Study :=
  match s.state.find? (fun u => u.id == id) with
  | none => Except.error TellError.UnknownTrialError
  | some u =>
    match u.value with
    | none =>
        Except.ok (Study.mk (s.journal ++ [JournalEvent.trialCompleted id v])
          (s.state.map (completeRec id v)))
    | some v0 =>
        if v0 = v then Except.ok s else Except.error TellError.DuplicateTellError

/-- The ids carried by the `TrialCreated` events of a journal, in append
order. -/
def createdIds (j : Journal) : List Nat :=
  j.filterMap fun e =>
    match e with
    | JournalEvent.trialCreated id _ => some id
    | _ => none

/-- How many trials have been asked (created) in a journal. -/
def createdCount (j : Journal) : Nat := (createdIds j).length

/-- One serialized operation against the shared journal: an `ask` by some
worker, or a `tell` of a value for some trial id.  The journal store
serializes concurrent appends into a single total order (spec §4.1/§5), so a
concurrent history is an arbitrary list of these operations. -/
inductive Op
  | ask
  | tell (id : Nat) (value : Int)

/-- Apply one serialized operation to the shared study.  A `tell` that fails
raises in the calling worker and leaves the shared journal unchanged. -/
def stepOp (sampler : Nat → Params) (s : Study) : Op → Study
  | Op.ask => (Study.ask sampler s).2
  | Op.tell id v =>
      match Study.tell s id v with
      | Except.ok s1 => s1
      | Except.error _ => s

/-- Run a serialized history of operations against a study handle. -/
def runOps (sampler : Nat → Params) (ops : List Op) (s : Study) : Study :=
  ops.foldl (stepOp sampler) s

/-- Coherence and id-uniqueness invariant of a study handle: the in-memory
projection is the replay of the journal, and the recorded trial ids are
exactly `0, 1, …, n-1` in ask order. -/
def Inv (s : Study) : Prop :=
  s.state = replay s.journal ∧ s.state.map TrialRec.id = List.range s.state.length

instance (s : Study) : Decidable (Inv s) :=
  inferInstanceAs (Decidable (_ ∧ _))

/-- One observable step of a worker: asking a trial, evaluating the objective
on its parameters, or telling its value back. -/
inductive Action
  | actAsk (id : Nat)
  | actEval (id : Nat)
  | actTell (id : Nat) (value : Int)
deriving DecidableEq

/-- An error escaping a worker: the objective raised, or a `tell` raised. -/
inductive RunError
  | objectiveError (e : String)
  | tellError (e : TellError)
deriving DecidableEq

/-- Outcome of running a worker: the trace of its ask/eval/tell steps, the
study handle as of the last executed step (its journal is durable and
survives a raised exception), and the exception, if any, that escaped. -/
structure RunResult where
  trace : List Action
  study : Study
  err : Option RunError
deriving DecidableEq

/-- The body of `optimize_study`, embedded from the notebook:
`for i in range(n_trials): trial = study.ask(); study.tell(trial, objective(trial))`.
Each iteration asks one trial, evaluates the objective on the trial's
parameters, and tells the resulting value back.  There is no exception
handler in the loop: if `objective` (or `tell`) raises, the exception escapes
and the remaining iterations are not executed. -/
def runTrials (sampler : Nat → Params) (objective : Params → Except String Int) :
    Nat → Study → RunResult
  | 0, s => RunResult.mk [] s none
  | Nat.succ k, s =>
      match objective (Study.ask sampler s).1.parameters with
      | Except.error e =>
          RunResult.mk
            [Action.actAsk (Study.ask sampler s).1.id,
             Action.actEval (Study.ask sampler s).1.id]
            (Study.ask sampler s).2
            (some (RunError.objectiveError e))
      | Except.ok v =>
          match Study.tell (Study.ask sampler s).2 (Study.ask sampler s).1.id v with
          | Except.error e =>
              RunResult.mk
                [Action.actAsk (Study.ask sampler s).1.id,
                 Action.actEval (Study.ask sampler s).1.id]
                (Study.ask sampler s).2
                (some (RunError.tellError e))
          | Except.ok s2 =>
              RunResult.mk
                (Action.actAsk (Study.ask sampler s).1.id
                  :: Action.actEval (Study.ask sampler s).1.id
                  :: Action.actTell (Study.ask sampler s).1.id v
                  :: (runTrials sampler objective k s2).trace)
                (runTrials sampler objective k s2).study
                (runTrials sampler objective k s2).err

/-- `optimize_study(n_trials)` from the notebook: create the study against
the shared storage with `load_if_exists=True` (replay the existing journal),
then run the ask/tell loop `n_trials` times. -/
def optimize_study (sampler : Nat → Params) (objective : Params → Except String Int)
    (n_trials : Nat) (j : Journal) : RunResult :=
  runTrials sampler objective n_trials (openStudy j)

/-- The trace the runner is specified to produce for `n` trials starting at
trial id `start`, when the objective returns a value on every trial: per
iteration one ask, one objective evaluation on that trial, and one tell of
that trial's value, in that order. -/
def expectedTrace (sampler : Nat → Params) (f : Params → Int) :
    Nat → Nat → List Action
  | _, 0 => []
  | start, Nat.succ k =>
      Action.actAsk start :: Action.actEval start
        :: Action.actTell start (f (sampler start))
        :: expectedTrace sampler f (start + 1) k

def Action.isAsk : Action → Bool
  | Action.actAsk _ => true
  | _ => false

def Action.isTell : Action → Bool
  | Action.actTell _ _ => true
  | _ => false

/-- Number of `ask` steps in a worker trace. -/
def askCount (tr : List Action) : Nat := (tr.filter Action.isAsk).length

/-- Number of `tell` steps in a worker trace. -/
def tellCount (tr : List Action) : Nat := (tr.filter Action.isTell).length

/-- Number of trial records with the given status. -/
def countStatus (st : Status) (s : StudyState) : Nat :=
  (s.filter fun t => decide (t.status = st)).length

/-- The study resulting from one successful ask-then-tell iteration. -/
def askThenTell (sampler : Nat → Params) (s : Study) (v : Int) : Study :=
  Study.mk
    (s.journal
      ++ [JournalEvent.trialCreated s.state.length (sampler s.state.length)]
      ++ [JournalEvent.trialCompleted s.state.length v])
    ((s.state
      ++ [TrialRec.mk s.state.length (sampler s.state.length) Status.Running none]).map
        (completeRec s.state.length v))

/-- Every prefix of the trace contains at most one more ask than tells: the
worker never holds two outstanding (asked but untold) trials. -/
def PrefBound (tr : List Action) : Prop :=
  ∀ m, askCount (tr.take m) ≤ tellCount (tr.take m) + 1

/-- The trace decomposes into iterations: each ask is immediately followed by
the objective evaluation of the same trial and then the tell of the same
trial, except that a final iteration may stop after its evaluation (the
objective raised). -/
def pairedTrace : List Action → Bool
  | [] => true
  | [Action.actAsk i, Action.actEval i2] => decide (i = i2)
  | Action.actAsk i :: Action.actEval i2 :: Action.actTell i3 _ :: rest =>
      decide (i = i2) && decide (i2 = i3) && pairedTrace rest
  | _ => false

instance {ε α : Type} [DecidableEq ε] [DecidableEq α] : DecidableEq (Except ε α) :=
  fun a b =>
    match a, b with
    | Except.error e1, Except.error e2 =>
        if h : e1 = e2 then Decidable.isTrue (by rw [h])
        else Decidable.isFalse (by intro hc; injection hc with h2; exact h h2)
    | Except.ok v1, Except.ok v2 =>
        if h : v1 = v2 then Decidable.isTrue (by rw [h])
        else Decidable.isFalse (by intro hc; injection hc with h2; exact h h2)
    | Except.error _, Except.ok _ => Decidable.isFalse (by intro hc; exact Except.noConfusion hc)
    | Except.ok _, Except.error _ => Decidable.isFalse (by intro hc; exact Except.noConfusion hc)

def markerSampler : Nat → Params := fun i => [("marker", ((i % 3 : Nat) : Int))]

def markerObjective : Params → Except String Int := fun ps =>
  if ps.lookup "marker" = some 1 then Except.error "marker raised" else Except.ok 0

/-- `n_trials_per_process = nb_trials // n_process` from the driver loop:
integer division, the remainder is dropped. -/
def n_trials_per_process (nb_trials n_process : Nat) : Nat := nb_trials / n_process

/-- `args_list = [n_trials_per_process for i in range(n_process)]` from the
driver loop: each of the `n_process` workers is given the same trial count. -/
def args_list (nb_trials n_process : Nat) : List Nat :=
  List.replicate n_process (n_trials_per_process nb_trials n_process)

/-- The joblib worker pool: the per-worker remaining trial counts, the shared
study (every append is serialized by the journal store), and the list of
exceptions raised by crashed workers. -/
structure WorkerPool where
  remaining : List Nat
  shared : Study
  failures : List RunError
deriving DecidableEq

/-- A fresh pool: each worker `i` still has to run `args[i]` trials, every
worker opens the same journal, and no worker has failed. -/
def initPool (args : List Nat) (j : Journal) : WorkerPool :=
  WorkerPool.mk args (openStudy j) []

/-- One loop iteration of worker `i` (the body of `optimize_study`'s
`for` loop), executed against the shared study: ask one trial, evaluate the
objective, tell the value back.  If the objective (or the tell) raises, the
worker crashes: its remaining trials are never run and joblib records the
exception. -/
def poolStep (sampler : Nat → Params) (objective : Params → Except String Int)
    (p : WorkerPool) (i : Nat) : WorkerPool :=
  match p.remaining.get? i with
  | some (Nat.succ k) =>
      match objective (Study.ask sampler p.shared).1.parameters with
      | Except.error e =>
          WorkerPool.mk (p.remaining.set i 0) (Study.ask sampler p.shared).2
            (p.failures ++ [RunError.objectiveError e])
      | Except.ok v =>
          match Study.tell (Study.ask sampler p.shared).2
              (Study.ask sampler p.shared).1.id v with
          | Except.error e =>
              WorkerPool.mk (p.remaining.set i 0) (Study.ask sampler p.shared).2
                (p.failures ++ [RunError.tellError e])
          | Except.ok s2 =>
              WorkerPool.mk (p.remaining.set i k) s2 p.failures
  | _ => p

/-- Run the pool under an arbitrary interleaving of worker iterations
(`sched` lists which worker performs its next loop iteration at each point;
the journal store serializes the iterations into this total order). -/
def runSchedule (sampler : Nat → Params) (objective : Params → Except String Int)
    (sched : List Nat) (p : WorkerPool) : WorkerPool :=
  sched.foldl (fun q i => poolStep sampler objective q i) p

/-- `log_name = f"optuna-journal_{study_name}.log"` from the notebook: the
file backing the shared storage, named deterministically from the study
name. -/
def log_name (study_name : String) : String :=
  "optuna-journal_" ++ study_name ++ ".log"

/-- One line of driver output.  The driver's loop prints a blank line, the
`Optimization with n_process = …` header, and `Done in {end - start}`.  The
`successFailureCounts` form exists in the alphabet only so that its absence
can be stated; the notebook's driver never prints such a line. -/
inductive OutputItem
  | blankLine
  | header (n_process : Nat)
  | doneIn (elapsed : Nat)
  | successFailureCounts (succeeded failed : Nat)
deriving DecidableEq

def OutputItem.isCounts : OutputItem → Bool
  | OutputItem.successFailureCounts _ _ => true
  | _ => false

/-- What one iteration of the driver's timing loop leaves behind: the shared
journal, the printed lines, and the exception (if any) that escaped. -/
structure BatchResult where
  journal : Journal
  output : List OutputItem
  error : Option RunError
deriving DecidableEq

/-- One iteration of the driver's timing loop, embedded from the notebook:
`start` and `finish` are the `time.time()` readings taken immediately before
and after the `joblib.Parallel` call, so `finish - start` is the wall-clock
time of the whole batch.  The blank line and the header are printed before
the batch runs.  If a worker raises, `joblib.Parallel` re-raises the
exception in the driver: no `Done in` line is printed and the first worker
error escapes. -/
def driverBatch (sampler : Nat → Params) (objective : Params → Except String Int)
    (n_process nb : Nat) (sched : List Nat) (start finish : Nat)
    (j : Journal) : BatchResult :=
  BatchResult.mk
    (runSchedule sampler objective sched (initPool (args_list nb n_process) j)).shared.journal
    ([OutputItem.blankLine, OutputItem.header n_process]
      ++ (match (runSchedule sampler objective sched
            (initPool (args_list nb n_process) j)).failures with
          | [] => [OutputItem.doneIn (finish - start)]
          | _ => []))
    (runSchedule sampler objective sched (initPool (args_list nb n_process) j)).failures.head?

/-- `nb_trials = 32` from the notebook. -/
def nb_trials : Nat := 32

/-- `n_processes = [1, 2, 4, 8]` from the notebook's timing loop. -/
def n_processes : List Nat := [1, 2, 4, 8]

/-- The journal after one batch of the timing loop: `nb_trials` total trials
partitioned over `n_process` workers, run under schedule `sched` against the
persistent storage holding journal `j`. -/
def batchJournal (sampler : Nat → Params) (objective : Params → Except String Int)
    (n_process : Nat) (sched : List Nat) (j : Journal) : Journal :=
  (runSchedule sampler objective sched
    (initPool (args_list nb_trials n_process) j)).shared.journal

/-- A batch completed: every worker consumed its whole budget and none
failed. -/
abbrev batchOK (sampler : Nat → Params) (objective : Params → Except String Int)
    (n_process : Nat) (sched : List Nat) (j : Journal) : Prop :=
  (runSchedule sampler objective sched
      (initPool (args_list nb_trials n_process) j)).failures = []
  ∧ (runSchedule sampler objective sched
      (initPool (args_list nb_trials n_process) j)).remaining.sum = 0

/-- The notebook's timing experiment: `for n_process in [1, 2, 4, 8]`, run
one batch with that many processes, every batch against the same persistent
`storage` (the journal produced by the previous batches), never resetting
it. -/
def timing_loop (sampler : Nat → Params) (objective : Params → Except String Int)
    (sch1 sch2 sch4 sch8 : List Nat) (j : Journal) : Journal :=
  batchJournal sampler objective 8 sch8
    (batchJournal sampler objective 4 sch4
      (batchJournal sampler objective 2 sch2
        (batchJournal sampler objective 1 sch1 j)))

def demoSch1 : List Nat := List.replicate 32 0

def demoSch2 : List Nat := List.replicate 16 0 ++ List.replicate 16 1

def demoSch4 : List Nat :=
  List.replicate 8 0 ++ List.replicate 8 1 ++ List.replicate 8 2 ++ List.replicate 8 3

def demoSch8 : List Nat :=
  List.replicate 4 0 ++ List.replicate 4 1 ++ List.replicate 4 2 ++ List.replicate 4 3
    ++ List.replicate 4 4 ++ List.replicate 4 5 ++ List.replicate 4 6 ++ List.replicate 4 7

/-- A concrete study with one asked-and-told trial (id 0, value 5). -/
def demoStudy : Study := runOps (fun _ => []) [Op.ask, Op.tell 0 5] (openStudy [])

/-! ## Theorems -/

theorem replay_append (j : Journal) (l : List JournalEvent) :
    replay (j ++ l) = l.foldl applyEvent (replay j) := by
  unfold replay
  exact List.foldl_append _ _ _ _

theorem replay_snoc (j : Journal) (e : JournalEvent) :
    replay (j ++ [e]) = applyEvent (replay j) e := by
  rw [replay_append]
  rfl

theorem completeRec_id (id : Nat) (v : Int) (t : TrialRec) :
    (completeRec id v t).id = t.id := by
  unfold completeRec
  split <;> rfl

theorem failRec_id (id : Nat) (t : TrialRec) :
    (failRec id t).id = t.id := by
  unfold failRec
  split <;> rfl

theorem completeRec_of_ne (id : Nat) (v : Int) (t : TrialRec) (h : t.id ≠ id) :
    completeRec id v t = t := by
  unfold completeRec
  exact if_neg h

/-- Replaying an event does not change the list of recorded trial ids except
that `TrialCreated` appends its fresh id. -/
theorem map_id_applyEvent (s : StudyState) (e : JournalEvent) :
    (applyEvent s e).map TrialRec.id = s.map TrialRec.id ++ createdIds [e] := by
  cases e with
  | trialCreated id ps => simp [applyEvent, createdIds]
  | trialCompleted id v =>
      simp only [applyEvent, createdIds, List.filterMap, List.map_map]
      rw [List.append_nil]
      exact List.map_congr_left fun t _ => completeRec_id id v t
  | trialFailed id =>
      simp only [applyEvent, createdIds, List.filterMap, List.map_map]
      rw [List.append_nil]
      exact List.map_congr_left fun t _ => failRec_id id t

theorem createdIds_append (j l : Journal) :
    createdIds (j ++ l) = createdIds j ++ createdIds l := by
  unfold createdIds
  exact List.filterMap_append _ _ _

theorem map_id_foldl (l : List JournalEvent) (s : StudyState) :
    (l.foldl applyEvent s).map TrialRec.id = s.map TrialRec.id ++ createdIds l := by
  induction l generalizing s with
  | nil => simp [createdIds]
  | cons e l ih =>
      rw [List.foldl_cons, ih, map_id_applyEvent, List.append_assoc,
        ← createdIds_append]
      rfl

/-- The trial ids of the replayed Study projection are exactly the ids of the
`TrialCreated` events, in order. -/
theorem map_id_replay (j : Journal) :
    (replay j).map TrialRec.id = createdIds j := by
  unfold replay
  rw [map_id_foldl]
  rfl

theorem coherent_ask (sampler : Nat → Params) (s : Study)
    (h : s.state = replay s.journal) :
    ((Study.ask sampler s).2).state = replay ((Study.ask sampler s).2).journal := by
  show s.state ++ _ = replay (s.journal ++ _)
  rw [replay_snoc, ← h]
  rfl

/-- Equation: `tell` on an id that was never asked. -/
theorem tell_unknown (s : Study) (id : Nat) (v : Int)
    (hf : s.state.find? (fun u => u.id == id) = none) :
    Study.tell s id v = Except.error TellError.UnknownTrialError := by
  unfold Study.tell
  rw [hf]

/-- Equation: `tell` on an asked trial that has no told value yet. -/
theorem tell_new (s : Study) (id : Nat) (v : Int) (u : TrialRec)
    (hf : s.state.find? (fun u => u.id == id) = some u) (hv : u.value = none) :
    Study.tell s id v
      = Except.ok (Study.mk (s.journal ++ [JournalEvent.trialCompleted id v])
          (s.state.map (completeRec id v))) := by
  unfold Study.tell
  rw [hf]
  show (match u.value with
    | none =>
        Except.ok (Study.mk (s.journal ++ [JournalEvent.trialCompleted id v])
          (s.state.map (completeRec id v)))
    | some v0 =>
        if v0 = v then Except.ok s else Except.error TellError.DuplicateTellError) = _
  rw [hv]

/-- Equation: a second `tell` with the identical `(id, value)` pair is a
no-op. -/
theorem tell_same (s : Study) (id : Nat) (v : Int) (u : TrialRec)
    (hf : s.state.find? (fun u => u.id == id) = some u) (hv : u.value = some v) :
    Study.tell s id v = Except.ok s := by
  unfold Study.tell
  rw [hf]
  show (match u.value with
    | none =>
        Except.ok (Study.mk (s.journal ++ [JournalEvent.trialCompleted id v])
          (s.state.map (completeRec id v)))
    | some v0 =>
        if v0 = v then Except.ok s else Except.error TellError.DuplicateTellError) = _
  rw [hv]
  exact if_pos rfl

/-- Equation: a second `tell` with a different value is a
`DuplicateTellError`. -/
theorem tell_dup (s : Study) (id : Nat) (v v0 : Int) (u : TrialRec)
    (hf : s.state.find? (fun u => u.id == id) = some u) (hv : u.value = some v0)
    (hne : v0 ≠ v) :
    Study.tell s id v = Except.error TellError.DuplicateTellError := by
  unfold Study.tell
  rw [hf]
  show (match u.value with
    | none =>
        Except.ok (Study.mk (s.journal ++ [JournalEvent.trialCompleted id v])
          (s.state.map (completeRec id v)))
    | some v0 =>
        if v0 = v then Except.ok s else Except.error TellError.DuplicateTellError) = _
  rw [hv]
  exact if_neg hne

/-- Any successful `tell` either appends one `TrialCompleted` event or leaves
the study unchanged. -/
theorem tell_ok_cases (s : Study) (id : Nat) (v : Int) (s1 : Study)
    (ht : Study.tell s id v = Except.ok s1) :
    s1 = Study.mk (s.journal ++ [JournalEvent.trialCompleted id v])
          (s.state.map (completeRec id v))
    ∨ s1 = s := by
  cases hf : s.state.find? (fun u => u.id == id) with
  | none => rw [tell_unknown s id v hf] at ht; exact absurd ht (by simp)
  | some u =>
      cases hv : u.value with
      | none =>
          rw [tell_new s id v u hf hv] at ht
          exact Or.inl (Except.ok.inj ht).symm
      | some v0 =>
          by_cases hvv : v0 = v
          · subst hvv
            rw [tell_same s id v0 u hf hv] at ht
            exact Or.inr (Except.ok.inj ht).symm
          · rw [tell_dup s id v v0 u hf hv hvv] at ht
            exact absurd ht (by simp)

theorem coherent_tell (s : Study) (id : Nat) (v : Int) (s1 : Study)
    (h : s.state = replay s.journal) (ht : Study.tell s id v = Except.ok s1) :
    s1.state = replay s1.journal := by
  cases tell_ok_cases s id v s1 ht with
  | inl he =>
      subst he
      show s.state.map (completeRec id v) = replay (s.journal ++ _)
      rw [replay_snoc, ← h]
      rfl
  | inr he => subst he; exact h

theorem ids_ask (sampler : Nat → Params) (s : Study)
    (h : s.state.map TrialRec.id = List.range s.state.length) :
    ((Study.ask sampler s).2).state.map TrialRec.id
      = List.range ((Study.ask sampler s).2).state.length := by
  show (s.state ++ [_]).map TrialRec.id = List.range (s.state ++ [_]).length
  rw [List.map_append, h, List.length_append, List.length_singleton,
    List.range_succ]
  rfl

theorem ids_tell (s : Study) (id : Nat) (v : Int) (s1 : Study)
    (h : s.state.map TrialRec.id = List.range s.state.length)
    (ht : Study.tell s id v = Except.ok s1) :
    s1.state.map TrialRec.id = List.range s1.state.length := by
  cases tell_ok_cases s id v s1 ht with
  | inl he =>
      subst he
      show (s.state.map (completeRec id v)).map TrialRec.id
        = List.range (s.state.map (completeRec id v)).length
      rw [List.length_map, List.map_map]
      rw [show (TrialRec.id ∘ completeRec id v) = TrialRec.id from
        funext fun t => completeRec_id id v t]
      exact h
  | inr he => subst he; exact h

theorem inv_ask (sampler : Nat → Params) (s : Study) (h : Inv s) :
    Inv ((Study.ask sampler s).2) :=
  ⟨coherent_ask sampler s h.1, ids_ask sampler s h.2⟩

theorem inv_tell (s : Study) (id : Nat) (v : Int) (s1 : Study) (h : Inv s)
    (ht : Study.tell s id v = Except.ok s1) : Inv s1 :=
  ⟨coherent_tell s id v s1 h.1 ht, ids_tell s id v s1 h.2 ht⟩

theorem inv_stepOp (sampler : Nat → Params) (s : Study) (o : Op) (h : Inv s) :
    Inv (stepOp sampler s o) := by
  cases o with
  | ask => exact inv_ask sampler s h
  | tell id v =>
      show Inv (match Study.tell s id v with
        | Except.ok s1 => s1
        | Except.error _ => s)
      cases ht : Study.tell s id v with
      | ok s1 => exact inv_tell s id v s1 h ht
      | error e => exact h

theorem inv_runOps (sampler : Nat → Params) (ops : List Op) (s : Study)
    (h : Inv s) : Inv (runOps sampler ops s) := by
  induction ops generalizing s with
  | nil => exact h
  | cons o ops ih => exact ih (stepOp sampler s o) (inv_stepOp sampler s o h)

theorem coherent_stepOp (sampler : Nat → Params) (s : Study) (o : Op)
    (h : s.state = replay s.journal) :
    (stepOp sampler s o).state = replay (stepOp sampler s o).journal := by
  cases o with
  | ask => exact coherent_ask sampler s h
  | tell id v =>
      show (match Study.tell s id v with
        | Except.ok s1 => s1
        | Except.error _ => s).state = replay (match Study.tell s id v with
        | Except.ok s1 => s1
        | Except.error _ => s).journal
      cases ht : Study.tell s id v with
      | ok s1 => exact coherent_tell s id v s1 h ht
      | error e => exact h

theorem coherent_runOps (sampler : Nat → Params) (ops : List Op) (s : Study)
    (h : s.state = replay s.journal) :
    (runOps sampler ops s).state = replay (runOps sampler ops s).journal := by
  induction ops generalizing s with
  | nil => exact h
  | cons o ops ih => exact ih (stepOp sampler s o) (coherent_stepOp sampler s o h)

theorem tell_journal_extends (s : Study) (id : Nat) (v : Int) (s1 : Study)
    (ht : Study.tell s id v = Except.ok s1) :
    ∃ t, s1.journal = s.journal ++ t := by
  cases tell_ok_cases s id v s1 ht with
  | inl he => exact ⟨[JournalEvent.trialCompleted id v], by rw [he]⟩
  | inr he => exact ⟨[], by rw [he, List.append_nil]⟩

theorem stepOp_journal_extends (sampler : Nat → Params) (s : Study) (o : Op) :
    ∃ t, (stepOp sampler s o).journal = s.journal ++ t := by
  cases o with
  | ask => exact ⟨[JournalEvent.trialCreated s.state.length (sampler s.state.length)], rfl⟩
  | tell id v =>
      show ∃ t, (match Study.tell s id v with
        | Except.ok s1 => s1
        | Except.error _ => s).journal = s.journal ++ t
      cases ht : Study.tell s id v with
      | ok s1 => exact tell_journal_extends s id v s1 ht
      | error e => exact ⟨[], (List.append_nil _).symm⟩

theorem runOps_journal_extends (sampler : Nat → Params) (ops : List Op) (s : Study) :
    ∃ t, (runOps sampler ops s).journal = s.journal ++ t := by
  induction ops generalizing s with
  | nil => exact ⟨[], (List.append_nil _).symm⟩
  | cons o ops ih =>
      obtain ⟨t1, h1⟩ := stepOp_journal_extends sampler s o
      obtain ⟨t2, h2⟩ := ih (stepOp sampler s o)
      exact ⟨t1 ++ t2, by
        show (runOps sampler ops (stepOp sampler s o)).journal = _
        rw [h2, h1, List.append_assoc]⟩

theorem find_append_fresh (l : List TrialRec) (n : Nat) (r : TrialRec)
    (hr : r.id = n) (h : ∀ u ∈ l, u.id ≠ n) :
    (l ++ [r]).find? (fun u => u.id == n) = some r := by
  induction l with
  | nil =>
      show List.find? (fun u => u.id == n) [r] = some r
      rw [List.find?_singleton, if_pos (by simp [hr])]
  | cons a l ih =>
      have ha : (a.id == n) = false := by
        simp only [beq_eq_false_iff_ne, ne_eq]
        exact h a (List.mem_cons_self a l)
      show List.find? (fun u => u.id == n) (a :: (l ++ [r])) = some r
      rw [List.find?_cons, ha]
      exact ih fun u hu => h u (List.mem_cons_of_mem a hu)

theorem state_ids_lt (s : Study) (h : s.state.map TrialRec.id = List.range s.state.length)
    (u : TrialRec) (hu : u ∈ s.state) : u.id < s.state.length := by
  have : u.id ∈ s.state.map TrialRec.id := List.mem_map_of_mem TrialRec.id hu
  rw [h] at this
  exact List.mem_range.mp this

/-- Telling the trial just returned by `ask` its value always succeeds and
appends exactly one `TrialCompleted` event. -/
theorem tell_ask_fresh (sampler : Nat → Params) (s : Study) (v : Int) (h : Inv s) :
    Study.tell (Study.ask sampler s).2 (Study.ask sampler s).1.id v
      = Except.ok (Study.mk
          (s.journal
            ++ [JournalEvent.trialCreated s.state.length (sampler s.state.length)]
            ++ [JournalEvent.trialCompleted s.state.length v])
          (((s.state
            ++ [TrialRec.mk s.state.length (sampler s.state.length) Status.Running none]).map
              (completeRec s.state.length v)))) := by
  have hfind : ((Study.ask sampler s).2).state.find?
      (fun u => u.id == s.state.length)
      = some (TrialRec.mk s.state.length (sampler s.state.length) Status.Running none) := by
    exact find_append_fresh s.state s.state.length _ rfl
      (fun u hu => Nat.ne_of_lt (state_ids_lt s h.2 u hu))
  exact tell_new (Study.ask sampler s).2 s.state.length v _ hfind rfl

/-- Claim C1: for every serialized history of `ask` and `tell` operations
issued by any number of worker processes against the same initially empty
shared journal (the journal store serializes concurrent appends into one
total order), the trial ids recorded in the journal are pairwise distinct, the
ids are assigned monotonically across the whole shared journal
(`0, 1, …, n-1` in append order), and the reconstructed study holds at most
one trial record per id. -/
theorem ask_ids_unique (sampler : Nat → Params) (ops : List Op) :
    (createdIds (runOps sampler ops (openStudy [])).journal).Nodup
    ∧ createdIds (runOps sampler ops (openStudy [])).journal
        = List.range (runOps sampler ops (openStudy [])).state.length
    ∧ ((runOps sampler ops (openStudy [])).state.map TrialRec.id).Nodup := by
  have hinv : Inv (runOps sampler ops (openStudy [])) :=
    inv_runOps sampler ops (openStudy []) (by decide)
  have hids : createdIds (runOps sampler ops (openStudy [])).journal
      = List.range (runOps sampler ops (openStudy [])).state.length := by
    rw [← map_id_replay, ← hinv.1]
    exact hinv.2
  refine ⟨?_, hids, ?_⟩
  · rw [hids]; exact List.nodup_range _
  · rw [hinv.2]; exact List.nodup_range _

/-- Claim C2: after any sequence of operations has been appended to the
journal, closing the Study and reopening it from the same journal (replaying
all events in sequence order) reconstructs an identical trial set — the same
ids, parameters, statuses and values as the in-memory projection that was
built incrementally.  `replay` (and hence `openStudy`) is a pure function of
the journal, so the reconstruction is deterministic. -/
theorem replay_round_trip (sampler : Nat → Params) (ops : List Op) (j : Journal) :
    (openStudy (runOps sampler ops (openStudy j)).journal).state
      = (runOps sampler ops (openStudy j)).state := by
  exact (coherent_runOps sampler ops (openStudy j) rfl).symm

theorem askThenTell_length (sampler : Nat → Params) (s : Study) (v : Int) :
    (askThenTell sampler s v).state.length = s.state.length + 1 := by
  unfold askThenTell
  simp

theorem inv_askThenTell (sampler : Nat → Params) (s : Study) (v : Int) (h : Inv s) :
    Inv (askThenTell sampler s v) :=
  inv_tell (Study.ask sampler s).2 (Study.ask sampler s).1.id v
    (askThenTell sampler s v) (inv_ask sampler s h) (tell_ask_fresh sampler s v h)

theorem runTrials_succ_objErr (sampler : Nat → Params)
    (objective : Params → Except String Int) (k : Nat) (s : Study) (e : String)
    (hobj : objective (Study.ask sampler s).1.parameters = Except.error e) :
    runTrials sampler objective (k + 1) s
      = RunResult.mk
          [Action.actAsk (Study.ask sampler s).1.id,
           Action.actEval (Study.ask sampler s).1.id]
          (Study.ask sampler s).2
          (some (RunError.objectiveError e)) := by
  simp only [runTrials, hobj]

theorem runTrials_succ_tellErr (sampler : Nat → Params)
    (objective : Params → Except String Int) (k : Nat) (s : Study) (v : Int)
    (te : TellError)
    (hobj : objective (Study.ask sampler s).1.parameters = Except.ok v)
    (ht : Study.tell (Study.ask sampler s).2 (Study.ask sampler s).1.id v
            = Except.error te) :
    runTrials sampler objective (k + 1) s
      = RunResult.mk
          [Action.actAsk (Study.ask sampler s).1.id,
           Action.actEval (Study.ask sampler s).1.id]
          (Study.ask sampler s).2
          (some (RunError.tellError te)) := by
  simp only [runTrials, hobj, ht]

theorem runTrials_succ_cons (sampler : Nat → Params)
    (objective : Params → Except String Int) (k : Nat) (s : Study) (v : Int)
    (s2 : Study)
    (hobj : objective (Study.ask sampler s).1.parameters = Except.ok v)
    (ht : Study.tell (Study.ask sampler s).2 (Study.ask sampler s).1.id v
            = Except.ok s2) :
    runTrials sampler objective (k + 1) s
      = RunResult.mk
          (Action.actAsk (Study.ask sampler s).1.id
            :: Action.actEval (Study.ask sampler s).1.id
            :: Action.actTell (Study.ask sampler s).1.id v
            :: (runTrials sampler objective k s2).trace)
          (runTrials sampler objective k s2).study
          (runTrials sampler objective k s2).err := by
  simp only [runTrials, hobj, ht]

/-- With the study invariant, a successful objective evaluation always makes
the iteration go through the `tell`-succeeds branch, producing
`askThenTell`. -/
theorem runTrials_succ_ok (sampler : Nat → Params)
    (objective : Params → Except String Int) (k : Nat) (s : Study) (v : Int)
    (hobj : objective (Study.ask sampler s).1.parameters = Except.ok v)
    (h : Inv s) :
    runTrials sampler objective (k + 1) s
      = RunResult.mk
          (Action.actAsk s.state.length :: Action.actEval s.state.length
            :: Action.actTell s.state.length v
            :: (runTrials sampler objective k (askThenTell sampler s v)).trace)
          (runTrials sampler objective k (askThenTell sampler s v)).study
          (runTrials sampler objective k (askThenTell sampler s v)).err :=
  runTrials_succ_cons sampler objective k s v (askThenTell sampler s v) hobj
    (tell_ask_fresh sampler s v h)

/-- Claim C5: for every study handle satisfying the study invariant, every
value-returning objective and every trial count `n`, the worker loop performs
exactly `n` iterations, each consisting of exactly one `study.ask()`, one
evaluation of the objective on the returned trial's parameters, and one
`study.tell` of that same trial's value, in that order, and no exception
escapes. -/
theorem ask_tell_loop_shape (sampler : Nat → Params) (f : Params → Int)
    (n : Nat) (s : Study) (h : Inv s) :
    (runTrials sampler (fun p => Except.ok (f p)) n s).trace
        = expectedTrace sampler f s.state.length n
    ∧ (runTrials sampler (fun p => Except.ok (f p)) n s).err = none := by
  induction n generalizing s with
  | zero => exact ⟨rfl, rfl⟩
  | succ k ih =>
      rw [runTrials_succ_ok sampler (fun p => Except.ok (f p)) k s
        (f (sampler s.state.length)) rfl h]
      obtain ⟨iht, ihe⟩ := ih (askThenTell sampler s (f (sampler s.state.length)))
        (inv_askThenTell sampler s (f (sampler s.state.length)) h)
      refine ⟨?_, ihe⟩
      show Action.actAsk s.state.length :: Action.actEval s.state.length
          :: Action.actTell s.state.length (f (sampler s.state.length))
          :: (runTrials sampler (fun p => Except.ok (f p)) k
                (askThenTell sampler s (f (sampler s.state.length)))).trace
        = Action.actAsk s.state.length :: Action.actEval s.state.length
          :: Action.actTell s.state.length (f (sampler s.state.length))
          :: expectedTrace sampler f (s.state.length + 1) k
      rw [iht, askThenTell_length]

/-- Witness for C5 at a concrete input: the invariant holds for a freshly
opened empty journal, and a two-trial run produces the specified trace. -/
theorem ask_tell_loop_shape_witness :
    Inv (openStudy [])
    ∧ (runTrials (fun _ => []) (fun p => Except.ok ((fun _ : Params => (0 : Int)) p))
          2 (openStudy [])).trace
        = expectedTrace (fun _ => []) (fun _ : Params => (0 : Int))
            (openStudy []).state.length 2 :=
  ⟨by decide,
   (ask_tell_loop_shape (fun _ => []) (fun _ : Params => (0 : Int)) 2 (openStudy [])
      (by decide)).1⟩

theorem askCount_nil : askCount [] = 0 := rfl

theorem tellCount_nil : tellCount [] = 0 := rfl

theorem askCount_append (l1 l2 : List Action) :
    askCount (l1 ++ l2) = askCount l1 + askCount l2 := by
  unfold askCount
  rw [List.filter_append, List.length_append]

theorem tellCount_append (l1 l2 : List Action) :
    tellCount (l1 ++ l2) = tellCount l1 + tellCount l2 := by
  unfold tellCount
  rw [List.filter_append, List.length_append]

theorem prefBound_append (l1 l2 : List Action) (h1 : PrefBound l1)
    (hb : askCount l1 = tellCount l1) (h2 : PrefBound l2) :
    PrefBound (l1 ++ l2) := by
  intro m
  rw [List.take_append_eq_append_take, askCount_append, tellCount_append]
  by_cases hm : m ≤ l1.length
  · rw [Nat.sub_eq_zero_of_le hm, List.take_zero, askCount_nil, tellCount_nil]
    have := h1 m
    omega
  · rw [List.take_of_length_le (Nat.le_of_not_le hm)]
    have := h2 (m - l1.length)
    omega

theorem prefBound_errBlock (i i2 : Nat) :
    PrefBound [Action.actAsk i, Action.actEval i2] := by
  intro m
  match m with
  | 0 => simp [askCount, tellCount]
  | 1 => simp [askCount, tellCount, Action.isAsk, Action.isTell]
  | Nat.succ (Nat.succ m) =>
      rw [List.take_of_length_le (by simp)]
      simp [askCount, tellCount, Action.isAsk, Action.isTell]

theorem prefBound_block (i : Nat) (v : Int) :
    PrefBound [Action.actAsk i, Action.actEval i, Action.actTell i v] := by
  intro m
  match m with
  | 0 => simp [askCount, tellCount]
  | 1 => simp [askCount, tellCount, Action.isAsk, Action.isTell]
  | 2 => simp [askCount, tellCount, Action.isAsk, Action.isTell]
  | Nat.succ (Nat.succ (Nat.succ m)) =>
      rw [List.take_of_length_le (by simp)]
      simp [askCount, tellCount, Action.isAsk, Action.isTell]

theorem balanced_block (i : Nat) (v : Int) :
    askCount [Action.actAsk i, Action.actEval i, Action.actTell i v]
      = tellCount [Action.actAsk i, Action.actEval i, Action.actTell i v] := by
  simp [askCount, tellCount, Action.isAsk, Action.isTell]

theorem prefBound_runTrials (sampler : Nat → Params)
    (objective : Params → Except String Int) (n : Nat) (s : Study) :
    PrefBound (runTrials sampler objective n s).trace := by
  induction n generalizing s with
  | zero =>
      intro m
      show askCount (List.take m []) ≤ tellCount (List.take m []) + 1
      rw [List.take_nil]
      simp [askCount, tellCount]
  | succ k ih =>
      cases hobj : objective (Study.ask sampler s).1.parameters with
      | error e =>
          rw [runTrials_succ_objErr sampler objective k s e hobj]
          exact prefBound_errBlock _ _
      | ok v =>
          cases ht : Study.tell (Study.ask sampler s).2 (Study.ask sampler s).1.id v with
          | error te =>
              rw [runTrials_succ_tellErr sampler objective k s v te hobj ht]
              exact prefBound_errBlock _ _
          | ok s2 =>
              rw [runTrials_succ_cons sampler objective k s v s2 hobj ht]
              exact prefBound_append
                [Action.actAsk (Study.ask sampler s).1.id,
                 Action.actEval (Study.ask sampler s).1.id,
                 Action.actTell (Study.ask sampler s).1.id v]
                (runTrials sampler objective k s2).trace
                (prefBound_block _ _) (balanced_block _ _) (ih s2)

theorem pairedTrace_runTrials (sampler : Nat → Params)
    (objective : Params → Except String Int) (n : Nat) (s : Study) :
    pairedTrace (runTrials sampler objective n s).trace = true := by
  induction n generalizing s with
  | zero => rfl
  | succ k ih =>
      cases hobj : objective (Study.ask sampler s).1.parameters with
      | error e =>
          rw [runTrials_succ_objErr sampler objective k s e hobj]
          simp [pairedTrace]
      | ok v =>
          cases ht : Study.tell (Study.ask sampler s).2 (Study.ask sampler s).1.id v with
          | error te =>
              rw [runTrials_succ_tellErr sampler objective k s v te hobj ht]
              simp [pairedTrace]
          | ok s2 =>
              rw [runTrials_succ_cons sampler objective k s v s2 hobj ht]
              simp [pairedTrace, ih s2]

/-- Claim C10: within a single worker process there is at most one
outstanding trial at every point of execution — every prefix of the worker's
trace has at most one more ask than tells — and the trace is a sequence of
iterations in which each ask is followed by the evaluation and then the tell
of that same trial before the next ask is issued. -/
theorem one_outstanding_trial (sampler : Nat → Params)
    (objective : Params → Except String Int) (n : Nat) (j : Journal) (m : Nat) :
    askCount ((optimize_study sampler objective n j).trace.take m)
        ≤ tellCount ((optimize_study sampler objective n j).trace.take m) + 1
    ∧ pairedTrace (optimize_study sampler objective n j).trace = true :=
  ⟨prefBound_runTrials sampler objective n (openStudy j) m,
   pairedTrace_runTrials sampler objective n (openStudy j)⟩

theorem map_completeRec_fresh (st : List TrialRec) (n : Nat) (v : Int)
    (h : ∀ u ∈ st, u.id ≠ n) : st.map (completeRec n v) = st := by
  induction st with
  | nil => rfl
  | cons a l ih =>
      rw [List.map_cons, completeRec_of_ne n v a (h a (List.mem_cons_self a l)),
        ih fun u hu => h u (List.mem_cons_of_mem a hu)]

/-- With the invariant, the state after a successful ask-then-tell iteration
is the old state plus one `Complete` record for the fresh trial. -/
theorem askThenTell_state (sampler : Nat → Params) (s : Study) (v : Int) (h : Inv s) :
    (askThenTell sampler s v).state
      = s.state ++ [TrialRec.mk s.state.length (sampler s.state.length)
          Status.Complete (some v)] := by
  show (s.state ++ [_]).map (completeRec s.state.length v) = _
  rw [List.map_append,
    map_completeRec_fresh s.state s.state.length v
      (fun u hu => Nat.ne_of_lt (state_ids_lt s h.2 u hu))]
  show s.state ++ [completeRec s.state.length v _] = _
  rw [show completeRec s.state.length v
      (TrialRec.mk s.state.length (sampler s.state.length) Status.Running none)
    = TrialRec.mk s.state.length (sampler s.state.length) Status.Complete (some v) by
      unfold completeRec
      rw [if_pos rfl]]

theorem countStatus_append (st : Status) (l1 l2 : List TrialRec) :
    countStatus st (l1 ++ l2) = countStatus st l1 + countStatus st l2 := by
  unfold countStatus
  rw [List.filter_append, List.length_append]

/-- The runner never records a `Failed` trial: on an objective error the
exception simply escapes, and successful iterations only add `Complete`
records. -/
theorem runner_never_fails_trials (sampler : Nat → Params)
    (objective : Params → Except String Int) (n : Nat) (s : Study) (h : Inv s) :
    countStatus Status.Failed (runTrials sampler objective n s).study.state
        = countStatus Status.Failed s.state
    ∧ tellCount (runTrials sampler objective n s).trace ≤ n
    ∧ ((runTrials sampler objective n s).err.isSome = true →
        tellCount (runTrials sampler objective n s).trace < n) := by
  induction n generalizing s with
  | zero =>
      refine ⟨rfl, Nat.le_refl 0, fun hc => ?_⟩
      simp [runTrials] at hc
  | succ k ih =>
      cases hobj : objective (Study.ask sampler s).1.parameters with
      | error e =>
          rw [runTrials_succ_objErr sampler objective k s e hobj]
          refine ⟨?_, by simp [tellCount, Action.isTell], fun _ => by
            simp [tellCount, Action.isTell]⟩
          show countStatus Status.Failed (s.state ++ [_]) = _
          rw [countStatus_append]
          simp [countStatus]
      | ok v =>
          rw [runTrials_succ_ok sampler objective k s v hobj h]
          obtain ⟨ihc, ihle, ihlt⟩ := ih (askThenTell sampler s v)
            (inv_askThenTell sampler s v h)
          have hblock : ∀ rest : List Action,
              tellCount (Action.actAsk s.state.length :: Action.actEval s.state.length
                :: Action.actTell s.state.length v :: rest) = 1 + tellCount rest := by
            intro rest
            show tellCount ([Action.actAsk s.state.length, Action.actEval s.state.length,
              Action.actTell s.state.length v] ++ rest) = 1 + tellCount rest
            rw [tellCount_append]
            simp [tellCount, Action.isTell]
          refine ⟨?_, ?_, fun hc => ?_⟩
          · rw [ihc, askThenTell_state sampler s v h, countStatus_append]
            simp [countStatus]
          · rw [hblock]
            omega
          · rw [hblock]
            have := ihlt hc
            omega

/-- Claim C4 (counterexample): running `optimize_study` for a batch of 10
trials with an objective that raises exactly when the sampled `marker`
parameter equals 1 — which holds for 3 of the 10 planned parameter sets
(ids 1, 4 and 7) — does NOT yield 7 Complete and 3 Failed trials.  The loop
has no exception handler, so the first raising trial (id 1) aborts the
worker: only 1 trial completes, no trial is ever recorded as Failed, the
exception escapes, and only 2 of the 10 trials are ever asked. -/
theorem failure_isolation_cex :
    ((List.range 10).filter fun i =>
        decide (markerObjective (markerSampler i) = Except.error "marker raised")).length = 3
    ∧ countStatus Status.Complete
        (optimize_study markerSampler markerObjective 10 []).study.state = 1
    ∧ countStatus Status.Failed
        (optimize_study markerSampler markerObjective 10 []).study.state = 0
    ∧ (optimize_study markerSampler markerObjective 10 []).err
        = some (RunError.objectiveError "marker raised")
    ∧ askCount (optimize_study markerSampler markerObjective 10 []).trace = 2
    ∧ ¬(countStatus Status.Complete
          (optimize_study markerSampler markerObjective 10 []).study.state = 7
        ∧ countStatus Status.Failed
            (optimize_study markerSampler markerObjective 10 []).study.state = 3) := by
  decide

/-- Claim C4 (amended): if the objective raises on some trial, the worker
loop does not record that trial as Failed and does not continue: no `Failed`
record is ever created (the Failed count of the study equals that of the
reopened journal), and the worker forfeits the remainder of its trial budget
(it completes strictly fewer than `n_trials` tells). -/
theorem objective_error_aborts (sampler : Nat → Params)
    (objective : Params → Except String Int) (n : Nat) (j : Journal)
    (hInv : Inv (openStudy j))
    (herr : (optimize_study sampler objective n j).err.isSome = true) :
    countStatus Status.Failed (optimize_study sampler objective n j).study.state
        = countStatus Status.Failed (replay j)
    ∧ tellCount (optimize_study sampler objective n j).trace < n :=
  ⟨(runner_never_fails_trials sampler objective n (openStudy j) hInv).1,
   (runner_never_fails_trials sampler objective n (openStudy j) hInv).2.2 herr⟩

/-- Witness for the amended C4 at a concrete input. -/
theorem objective_error_aborts_witness :
    Inv (openStudy [])
    ∧ (optimize_study markerSampler markerObjective 10 []).err.isSome = true
    ∧ tellCount (optimize_study markerSampler markerObjective 10 []).trace < 10 :=
  ⟨by decide, by decide,
   (objective_error_aborts markerSampler markerObjective 10 [] (by decide) (by decide)).2⟩

theorem sum_replicate_nat (m x : Nat) : (List.replicate m x).sum = m * x := by
  induction m with
  | zero => simp
  | succ k ih =>
      rw [List.replicate_succ, List.sum_cons, ih]
      ring

theorem createdCount_append (j l : Journal) :
    createdCount (j ++ l) = createdCount j + createdCount l := by
  unfold createdCount
  rw [createdIds_append, List.length_append]

theorem sum_set_succ (l : List Nat) (i k : Nat) (h : l.get? i = some (k + 1)) :
    (l.set i k).sum + 1 = l.sum := by
  induction l generalizing i with
  | nil => simp at h
  | cons a l ih =>
      cases i with
      | zero =>
          rw [List.get?_cons_zero] at h
          rw [List.set_cons_zero, List.sum_cons, List.sum_cons, Option.some.inj h]
          omega
      | succ i2 =>
          rw [List.get?_cons_succ] at h
          rw [List.set_cons_succ, List.sum_cons, List.sum_cons]
          have := ih i2 h
          omega

/-- Branch equations of `poolStep`. -/
theorem poolStep_idle (sampler : Nat → Params)
    (objective : Params → Except String Int) (p : WorkerPool) (i : Nat)
    (hr : p.remaining.get? i = none) :
    poolStep sampler objective p i = p := by
  simp only [poolStep, hr]

theorem poolStep_done (sampler : Nat → Params)
    (objective : Params → Except String Int) (p : WorkerPool) (i : Nat)
    (hr : p.remaining.get? i = some 0) :
    poolStep sampler objective p i = p := by
  simp only [poolStep, hr]

theorem poolStep_objErr (sampler : Nat → Params)
    (objective : Params → Except String Int) (p : WorkerPool) (i k : Nat) (e : String)
    (hr : p.remaining.get? i = some (k + 1))
    (hobj : objective (Study.ask sampler p.shared).1.parameters = Except.error e) :
    poolStep sampler objective p i
      = WorkerPool.mk (p.remaining.set i 0) (Study.ask sampler p.shared).2
          (p.failures ++ [RunError.objectiveError e]) := by
  simp only [poolStep, hr, hobj]

theorem poolStep_tellErr (sampler : Nat → Params)
    (objective : Params → Except String Int) (p : WorkerPool) (i k : Nat) (v : Int)
    (te : TellError)
    (hr : p.remaining.get? i = some (k + 1))
    (hobj : objective (Study.ask sampler p.shared).1.parameters = Except.ok v)
    (ht : Study.tell (Study.ask sampler p.shared).2 (Study.ask sampler p.shared).1.id v
            = Except.error te) :
    poolStep sampler objective p i
      = WorkerPool.mk (p.remaining.set i 0) (Study.ask sampler p.shared).2
          (p.failures ++ [RunError.tellError te]) := by
  simp only [poolStep, hr, hobj, ht]

theorem poolStep_ok (sampler : Nat → Params)
    (objective : Params → Except String Int) (p : WorkerPool) (i k : Nat) (v : Int)
    (s2 : Study)
    (hr : p.remaining.get? i = some (k + 1))
    (hobj : objective (Study.ask sampler p.shared).1.parameters = Except.ok v)
    (ht : Study.tell (Study.ask sampler p.shared).2 (Study.ask sampler p.shared).1.id v
            = Except.ok s2) :
    poolStep sampler objective p i
      = WorkerPool.mk (p.remaining.set i k) s2 p.failures := by
  simp only [poolStep, hr, hobj, ht]

/-- Each pool step either performs one full iteration — consuming one
remaining trial and creating exactly one new journal trial — or records a new
worker failure (or is a no-op for a finished worker). -/
theorem poolStep_cases (sampler : Nat → Params)
    (objective : Params → Except String Int) (p : WorkerPool) (i : Nat) :
    ((poolStep sampler objective p i).failures = p.failures
      ∧ createdCount (poolStep sampler objective p i).shared.journal
          + (poolStep sampler objective p i).remaining.sum
        = createdCount p.shared.journal + p.remaining.sum)
    ∨ ∃ e, (poolStep sampler objective p i).failures = p.failures ++ [e] := by
  cases hr : p.remaining.get? i with
  | none => rw [poolStep_idle sampler objective p i hr]; exact Or.inl ⟨rfl, rfl⟩
  | some c =>
      cases c with
      | zero => rw [poolStep_done sampler objective p i hr]; exact Or.inl ⟨rfl, rfl⟩
      | succ k =>
          cases hobj : objective (Study.ask sampler p.shared).1.parameters with
          | error e =>
              rw [poolStep_objErr sampler objective p i k e hr hobj]
              exact Or.inr ⟨RunError.objectiveError e, rfl⟩
          | ok v =>
              cases ht : Study.tell (Study.ask sampler p.shared).2
                  (Study.ask sampler p.shared).1.id v with
              | error te =>
                  rw [poolStep_tellErr sampler objective p i k v te hr hobj ht]
                  exact Or.inr ⟨RunError.tellError te, rfl⟩
              | ok s2 =>
                  rw [poolStep_ok sampler objective p i k v s2 hr hobj ht]
                  refine Or.inl ⟨rfl, ?_⟩
                  show createdCount s2.journal + (p.remaining.set i k).sum = _
                  have hids : createdIds s2.journal
                      = createdIds (Study.ask sampler p.shared).2.journal := by
                    cases tell_ok_cases _ _ _ s2 ht with
                    | inl he =>
                        rw [he]
                        show createdIds (_ ++ [JournalEvent.trialCompleted _ v]) = _
                        rw [createdIds_append]
                        simp [createdIds]
                    | inr he => rw [he]
                  have hask : createdCount (Study.ask sampler p.shared).2.journal
                      = createdCount p.shared.journal + 1 := by
                    show createdCount (p.shared.journal ++ [JournalEvent.trialCreated _ _]) = _
                    rw [createdCount_append]
                    rfl
                  have hsum := sum_set_succ p.remaining i k hr
                  unfold createdCount
                  rw [hids]
                  unfold createdCount at hask
                  omega

/-- Worker failures only accumulate. -/
theorem runSchedule_failures_extend (sampler : Nat → Params)
    (objective : Params → Except String Int) (sched : List Nat) (p : WorkerPool) :
    ∃ t, (runSchedule sampler objective sched p).failures = p.failures ++ t := by
  induction sched generalizing p with
  | nil => exact ⟨[], (List.append_nil _).symm⟩
  | cons i sched ih =>
      obtain ⟨t2, h2⟩ := ih (poolStep sampler objective p i)
      cases poolStep_cases sampler objective p i with
      | inl hc =>
          exact ⟨t2, by
            show (runSchedule sampler objective sched (poolStep sampler objective p i)).failures = _
            rw [h2, hc.1]⟩
      | inr hc =>
          obtain ⟨e, he⟩ := hc
          exact ⟨e :: t2, by
            show (runSchedule sampler objective sched (poolStep sampler objective p i)).failures = _
            rw [h2, he, List.append_assoc]
            rfl⟩

/-- If a schedule finishes with no recorded failure, the number of trials
created in the shared journal grew by exactly the number of loop iterations
consumed. -/
theorem runSchedule_count (sampler : Nat → Params)
    (objective : Params → Except String Int) (sched : List Nat) (p : WorkerPool)
    (h : (runSchedule sampler objective sched p).failures = p.failures) :
    createdCount (runSchedule sampler objective sched p).shared.journal
        + (runSchedule sampler objective sched p).remaining.sum
      = createdCount p.shared.journal + p.remaining.sum := by
  induction sched generalizing p with
  | nil => rfl
  | cons i sched ih =>
      have hstep : (runSchedule sampler objective (i :: sched) p)
          = runSchedule sampler objective sched (poolStep sampler objective p i) := rfl
      rw [hstep] at h ⊢
      cases poolStep_cases sampler objective p i with
      | inl hc =>
          rw [ih (poolStep sampler objective p i) (by rw [h, hc.1]), hc.2]
      | inr hc =>
          obtain ⟨e, he⟩ := hc
          obtain ⟨t, ht⟩ := runSchedule_failures_extend sampler objective sched
            (poolStep sampler objective p i)
          rw [ht, he, List.append_assoc] at h
          have : p.failures.length = (p.failures ++ ([e] ++ t)).length := by rw [h]
          rw [List.length_append, List.length_append] at this
          simp at this

/-- The pool's shared journal only grows. -/
theorem poolStep_journal_extends (sampler : Nat → Params)
    (objective : Params → Except String Int) (p : WorkerPool) (i : Nat) :
    ∃ t, (poolStep sampler objective p i).shared.journal = p.shared.journal ++ t := by
  cases hr : p.remaining.get? i with
  | none =>
      rw [poolStep_idle sampler objective p i hr]
      exact ⟨[], (List.append_nil _).symm⟩
  | some c =>
      cases c with
      | zero =>
          rw [poolStep_done sampler objective p i hr]
          exact ⟨[], (List.append_nil _).symm⟩
      | succ k =>
          cases hobj : objective (Study.ask sampler p.shared).1.parameters with
          | error e =>
              rw [poolStep_objErr sampler objective p i k e hr hobj]
              exact ⟨[JournalEvent.trialCreated p.shared.state.length
                (sampler p.shared.state.length)], rfl⟩
          | ok v =>
              cases ht : Study.tell (Study.ask sampler p.shared).2
                  (Study.ask sampler p.shared).1.id v with
              | error te =>
                  rw [poolStep_tellErr sampler objective p i k v te hr hobj ht]
                  exact ⟨[JournalEvent.trialCreated p.shared.state.length
                    (sampler p.shared.state.length)], rfl⟩
              | ok s2 =>
                  rw [poolStep_ok sampler objective p i k v s2 hr hobj ht]
                  obtain ⟨t, hj⟩ := tell_journal_extends _ _ _ s2 ht
                  exact ⟨JournalEvent.trialCreated p.shared.state.length
                      (sampler p.shared.state.length) :: t, by
                    show s2.journal = _
                    rw [hj]
                    show (p.shared.journal ++ [_]) ++ t = _
                    rw [List.append_assoc]
                    rfl⟩

theorem runSchedule_journal_extends (sampler : Nat → Params)
    (objective : Params → Except String Int) (sched : List Nat) (p : WorkerPool) :
    ∃ t, (runSchedule sampler objective sched p).shared.journal
      = p.shared.journal ++ t := by
  induction sched generalizing p with
  | nil => exact ⟨[], (List.append_nil _).symm⟩
  | cons i sched ih =>
      obtain ⟨t1, h1⟩ := poolStep_journal_extends sampler objective p i
      obtain ⟨t2, h2⟩ := ih (poolStep sampler objective p i)
      exact ⟨t1 ++ t2, by
        show (runSchedule sampler objective sched (poolStep sampler objective p i)).shared.journal = _
        rw [h2, h1, List.append_assoc]⟩

/-- Claim C3: the driver gives each of the `n_process` workers exactly
`nb_trials // n_process` trials (integer division, remainder dropped).  For
every schedule under which all workers finish their budgets without failure,
the total number of trials asked across all processes is
`n_process * (nb_trials // n_process)`; in particular the per-worker list for
32 trials over 4 processes is `[8, 8, 8, 8]` (32 in total), and for 33 trials
over 4 processes the total is still only 32 (remainder dropped). -/
theorem run_parallel_trial_counts (sampler : Nat → Params)
    (objective : Params → Except String Int) (sched : List Nat)
    (total n : Nat) (j : Journal)
    (hfail : (runSchedule sampler objective sched (initPool (args_list total n) j)).failures = [])
    (hdone : (runSchedule sampler objective sched (initPool (args_list total n) j)).remaining.sum = 0) :
    createdCount (runSchedule sampler objective sched
        (initPool (args_list total n) j)).shared.journal
      = createdCount j + n * (total / n)
    ∧ args_list 32 4 = List.replicate 4 8
    ∧ (args_list 32 4).sum = 32
    ∧ (args_list 33 4).sum = 32 := by
  refine ⟨?_, rfl, by decide, by decide⟩
  have hc := runSchedule_count sampler objective sched (initPool (args_list total n) j) hfail
  rw [hdone] at hc
  have hsum : (initPool (args_list total n) j).remaining.sum = n * (total / n) :=
    sum_replicate_nat n (total / n)
  rw [hsum] at hc
  have hj : createdCount (initPool (args_list total n) j).shared.journal = createdCount j := rfl
  rw [hj] at hc
  omega

/-- Witness for C3 at a concrete input: two workers with one trial each under
the schedule `[0, 1]` finish with no failures, and two trials are created. -/
theorem run_parallel_trial_counts_witness :
    (runSchedule (fun _ => []) (fun _ => Except.ok 0) [0, 1]
        (initPool (args_list 2 2) [])).failures = []
    ∧ (runSchedule (fun _ => []) (fun _ => Except.ok 0) [0, 1]
        (initPool (args_list 2 2) [])).remaining.sum = 0
    ∧ createdCount (runSchedule (fun _ => []) (fun _ => Except.ok 0) [0, 1]
        (initPool (args_list 2 2) [])).shared.journal
      = createdCount ([] : Journal) + 2 * (2 / 2) :=
  ⟨by decide, by decide,
   (run_parallel_trial_counts (fun _ => []) (fun _ => Except.ok 0) [0, 1] 2 2 []
      (by decide) (by decide)).1⟩

/-- Claim C7: the journal backing a study is a single append-only log whose
file name is a deterministic function of the study name (`log_name` is a pure
function, so every process that opens the same study name computes the same
file name), and every operation run against the study only appends to the
journal: the previous journal is always a prefix of the new one. -/
theorem journal_file_shared (study_name : String) (sampler : Nat → Params)
    (ops : List Op) (s : Study) :
    log_name study_name = "optuna-journal_" ++ study_name ++ ".log"
    ∧ ∃ t, (runOps sampler ops s).journal = s.journal ++ t :=
  ⟨rfl, runOps_journal_extends sampler ops s⟩

/-- Claim C8 (counterexample): a concrete, fully successful batch (two
workers, one trial each) reports only the blank line, the header and the
whole-batch elapsed time — its output contains no success/failure-count
line, refuting the claim that the driver reports elapsed time "together with
success/failure counts". -/
theorem driver_no_counts_cex :
    (driverBatch (fun _ => []) (fun _ => Except.ok 0) 2 2 [0, 1] 100 120 []).error = none
    ∧ ((driverBatch (fun _ => []) (fun _ => Except.ok 0) 2 2 [0, 1] 100 120 []).output.filter
        OutputItem.isCounts) = []
    ∧ (driverBatch (fun _ => []) (fun _ => Except.ok 0) 2 2 [0, 1] 100 120 []).output
        = [OutputItem.blankLine, OutputItem.header 2, OutputItem.doneIn 20] := by
  decide

/-- Claim C8 (amended): after every batch the driver reports at most the
wall-clock elapsed time of the whole batch and never reports success/failure
counts; when the batch completes without worker failure it prints exactly the
blank line, the header and one `Done in (finish - start)` line (no
per-process or per-trial timing), and when some worker fails the first worker
error surfaces as the driver's exception (it is not silently swallowed) and
no elapsed-time line is printed. -/
theorem driver_batch_report (sampler : Nat → Params)
    (objective : Params → Except String Int) (n_process nb : Nat)
    (sched : List Nat) (start finish : Nat) (j : Journal) :
    (driverBatch sampler objective n_process nb sched start finish j).output.filter
        OutputItem.isCounts = []
    ∧ (driverBatch sampler objective n_process nb sched start finish j).error
        = (runSchedule sampler objective sched
            (initPool (args_list nb n_process) j)).failures.head?
    ∧ (((runSchedule sampler objective sched
            (initPool (args_list nb n_process) j)).failures = []
          ∧ (driverBatch sampler objective n_process nb sched start finish j).output
              = [OutputItem.blankLine, OutputItem.header n_process,
                 OutputItem.doneIn (finish - start)]
          ∧ (driverBatch sampler objective n_process nb sched start finish j).error = none)
        ∨ ((runSchedule sampler objective sched
              (initPool (args_list nb n_process) j)).failures ≠ []
            ∧ (driverBatch sampler objective n_process nb sched start finish j).output
                = [OutputItem.blankLine, OutputItem.header n_process]
            ∧ (driverBatch sampler objective n_process nb sched start finish j).error.isSome
                = true)) := by
  cases hf : (runSchedule sampler objective sched
      (initPool (args_list nb n_process) j)).failures with
  | nil =>
      refine ⟨?_, ?_, Or.inl ⟨rfl, ?_, ?_⟩⟩ <;>
        simp [driverBatch, hf, OutputItem.isCounts]
  | cons e rest =>
      refine ⟨?_, ?_, Or.inr ⟨by simp, ?_, ?_⟩⟩ <;>
        simp [driverBatch, hf, OutputItem.isCounts]

theorem batchJournal_count (sampler : Nat → Params)
    (objective : Params → Except String Int) (n_process : Nat) (sched : List Nat)
    (j : Journal) (h : batchOK sampler objective n_process sched j) :
    createdCount (batchJournal sampler objective n_process sched j)
      = createdCount j + n_process * (nb_trials / n_process) := by
  unfold batchJournal
  have hc := runSchedule_count sampler objective sched
    (initPool (args_list nb_trials n_process) j) h.1
  rw [h.2, Nat.add_zero] at hc
  rw [hc]
  show createdCount j
      + (List.replicate n_process (n_trials_per_process nb_trials n_process)).sum
    = createdCount j + n_process * (nb_trials / n_process)
  rw [sum_replicate_nat]
  rfl

theorem batchJournal_extends (sampler : Nat → Params)
    (objective : Params → Except String Int) (n_process : Nat) (sched : List Nat)
    (j : Journal) :
    ∃ t, batchJournal sampler objective n_process sched j = j ++ t :=
  runSchedule_journal_extends sampler objective sched
    (initPool (args_list nb_trials n_process) j)

/-- Claim C9: the timing experiment reuses one persistent storage (one
journal) across all four parallelization configurations without resetting it,
and every batch only appends to it; therefore after the full loop over
`n_processes = [1, 2, 4, 8]` with `nb_trials = 32` (and every batch
completing without failure) the single shared journal holds all
`4 * 32 = 128` asked trials, and the journal before the loop is still a
prefix of the final one (no earlier run's trials are ever removed). -/
theorem shared_storage_accumulates (sampler : Nat → Params)
    (objective : Params → Except String Int) (sch1 sch2 sch4 sch8 : List Nat)
    (j : Journal)
    (h1 : batchOK sampler objective 1 sch1 j)
    (h2 : batchOK sampler objective 2 sch2 (batchJournal sampler objective 1 sch1 j))
    (h4 : batchOK sampler objective 4 sch4
      (batchJournal sampler objective 2 sch2 (batchJournal sampler objective 1 sch1 j)))
    (h8 : batchOK sampler objective 8 sch8
      (batchJournal sampler objective 4 sch4
        (batchJournal sampler objective 2 sch2 (batchJournal sampler objective 1 sch1 j)))) :
    createdCount (timing_loop sampler objective sch1 sch2 sch4 sch8 j)
        = createdCount j + 4 * nb_trials
    ∧ ∃ t, timing_loop sampler objective sch1 sch2 sch4 sch8 j = j ++ t := by
  constructor
  · unfold timing_loop
    rw [batchJournal_count sampler objective 8 sch8 _ h8,
      batchJournal_count sampler objective 4 sch4 _ h4,
      batchJournal_count sampler objective 2 sch2 _ h2,
      batchJournal_count sampler objective 1 sch1 j h1]
    norm_num [nb_trials]
  · obtain ⟨t1, e1⟩ := batchJournal_extends sampler objective 1 sch1 j
    obtain ⟨t2, e2⟩ := batchJournal_extends sampler objective 2 sch2
      (batchJournal sampler objective 1 sch1 j)
    obtain ⟨t4, e4⟩ := batchJournal_extends sampler objective 4 sch4
      (batchJournal sampler objective 2 sch2 (batchJournal sampler objective 1 sch1 j))
    obtain ⟨t8, e8⟩ := batchJournal_extends sampler objective 8 sch8
      (batchJournal sampler objective 4 sch4
        (batchJournal sampler objective 2 sch2 (batchJournal sampler objective 1 sch1 j)))
    refine ⟨t1 ++ (t2 ++ (t4 ++ t8)), ?_⟩
    show batchJournal sampler objective 8 sch8 _ = _
    rw [e8, e4, e2, e1, List.append_assoc, List.append_assoc, List.append_assoc]

set_option maxRecDepth 100000 in
set_option maxHeartbeats 4000000 in
/-- Witness for C9 at a concrete input: with an always-succeeding objective
and concrete complete schedules, every batch finishes and the final journal
holds 128 created trials. -/
theorem shared_storage_accumulates_witness :
    batchOK (fun _ => []) (fun _ => Except.ok 0) 1 demoSch1 []
    ∧ createdCount (timing_loop (fun _ => []) (fun _ => Except.ok 0)
        demoSch1 demoSch2 demoSch4 demoSch8 [])
      = createdCount ([] : Journal) + 4 * nb_trials :=
  ⟨by decide,
   (shared_storage_accumulates (fun _ => []) (fun _ => Except.ok 0)
      demoSch1 demoSch2 demoSch4 demoSch8 []
      (by decide) (by decide) (by decide) (by decide)).1⟩

/-- Claim C6: for a trial id already told with value `v`, a second `tell`
with the identical `(id, v)` pair is a no-op — the study (journal included)
is returned unchanged, so no second completion record is ever created and the
journal is not corrupted — while a second `tell` for the same id with a
different value fails with `DuplicateTellError`; and a `tell` for an id that
was never asked from this journal fails with `UnknownTrialError`. -/
theorem tell_idempotence_boundary (s : Study) (id : Nat) (v v2 : Int)
    (u : TrialRec) (hfound : s.state.find? (fun w => w.id == id) = some u)
    (hval : u.value = some v) (hne : v2 ≠ v) (idNew : Nat)
    (hnew : s.state.find? (fun w => w.id == idNew) = none) :
    Study.tell s id v = Except.ok s
    ∧ Study.tell s id v2 = Except.error TellError.DuplicateTellError
    ∧ Study.tell s idNew v = Except.error TellError.UnknownTrialError :=
  ⟨tell_same s id v u hfound hval,
   tell_dup s id v2 v u hfound hval (Ne.symm hne),
   tell_unknown s idNew v hnew⟩

/-- Witness for C6 at a concrete study: trial 0 was told value 5; retelling
`(0, 5)` is a no-op, telling `(0, 6)` is a `DuplicateTellError`, and telling
the never-asked id 1 is an `UnknownTrialError`. -/
theorem tell_idempotence_boundary_witness :
    Study.tell demoStudy 0 5 = Except.ok demoStudy
    ∧ Study.tell demoStudy 0 6 = Except.error TellError.DuplicateTellError
    ∧ Study.tell demoStudy 1 5 = Except.error TellError.UnknownTrialError :=
  tell_idempotence_boundary demoStudy 0 5 6
    (TrialRec.mk 0 [] Status.Complete (some 5)) (by decide) (by decide)
    (by decide) 1 (by decide)

end HPSearch
